import Mathlib

/-!
Verification development for the cardiac multi-atlas segmentation service
(`segmentation/cardiac/service.py`).

The pipeline orchestrator is embedded shallowly:
* the crop-box geometry computed from the detected lung bounding box
  (`service.py` lines 180-188) is embedded over `Int` (Python integers);
* image volumes are embedded as sized voxel grids with a value function;
* external collaborators that are not part of the orchestrator file
  (`CropImage`, `sitk.Paste`, `process_probability_image`, `IAR`) are
  modelled from their documented contracts, as stated in their doc
  comments below;
* the per-atlas registration loops, the atlas-set construction, and the
  output compositor loop are embedded from the orchestrator source.
-/

namespace Platipy

/-- Size of the target image, in voxels per axis (`img.GetSize()`). Embedded
over `Int` since the Python arithmetic in the crop-box computation is over
unbounded integers. -/
structure ImgSize where
  x : Int
  y : Int
  z : Int
deriving DecidableEq

/-- The per-axis crop expansions from `lungMaskSettings`
(`sagittalExpansion`, `coronalExpansion`, `axialExpansion`). -/
structure Expansion where
  sagittal : Int
  coronal : Int
  axial : Int
deriving DecidableEq

/-- The bounding box returned by the `AutoLungSegment` organ detector:
origin and size per axis, `lung_bounding_box[0..5]`. -/
structure DetectedBBox where
  sag0 : Int
  cor0 : Int
  ax0 : Int
  sagD : Int
  corD : Int
  axD : Int
deriving DecidableEq

/-- The crop box `(sag0, cor0, ax0, sag_d, cor_d, ax_d)` computed by the
orchestrator (origin and size per axis, voxel index space). -/
structure CropBoxI where
  sag0 : Int
  cor0 : Int
  ax0 : Int
  sagD : Int
  corD : Int
  axD : Int
deriving DecidableEq

/-- Embeds `service.py` lines 180-188:
`sag0 = max([lung_bounding_box[0] - sagittal_expansion, 0])`,
`sag_d = min([lung_bounding_box[3] + sagittal_expansion, img.GetSize()[0] - sag0])`,
and likewise for the coronal and axial axes. -/
def computeCropBox (img : ImgSize) (e : Expansion) (bb : DetectedBBox) : CropBoxI :=
  let sag0 := max (bb.sag0 - e.sagittal) 0
  let cor0 := max (bb.cor0 - e.coronal) 0
  let ax0 := max (bb.ax0 - e.axial) 0
  let sagD := min (bb.sagD + e.sagittal) (img.x - sag0)
  let corD := min (bb.corD + e.coronal) (img.y - cor0)
  let axD := min (bb.axD + e.axial) (img.z - ax0)
  ⟨sag0, cor0, ax0, sagD, corD, axD⟩

theorem computeCropBox_sag0 (img : ImgSize) (e : Expansion) (bb : DetectedBBox) :
    (computeCropBox img e bb).sag0 = max (bb.sag0 - e.sagittal) 0 := rfl

theorem computeCropBox_sagD (img : ImgSize) (e : Expansion) (bb : DetectedBBox) :
    (computeCropBox img e bb).sagD
      = min (bb.sagD + e.sagittal) (img.x - max (bb.sag0 - e.sagittal) 0) := rfl

/-- C8: the computed Crop Box is clamped within the source volume bounds:
on each axis the crop origin is nonnegative and origin plus size does not
exceed the image size on that axis, for every target size, every expansion
and every detector bounding box. -/
theorem crop_box_clamped (img : ImgSize) (e : Expansion) (bb : DetectedBBox) :
    0 ≤ (computeCropBox img e bb).sag0 ∧
    0 ≤ (computeCropBox img e bb).cor0 ∧
    0 ≤ (computeCropBox img e bb).ax0 ∧
    (computeCropBox img e bb).sag0 + (computeCropBox img e bb).sagD ≤ img.x ∧
    (computeCropBox img e bb).cor0 + (computeCropBox img e bb).corD ≤ img.y ∧
    (computeCropBox img e bb).ax0 + (computeCropBox img e bb).axD ≤ img.z := by
  simp only [computeCropBox]
  omega

/-- C1 (counterexample): the claim states that on each axis the crop end
reaches the detected end plus the margin whenever that is within the
volume. On a 100-voxel axis with detected origin 20, detected size 30 and
margin 5, the detected end plus margin is 55 and lies within the volume,
yet the computed crop ends at 15 + 35 = 50: the size is expanded by the
margin only once, and the origin shift consumes it. -/
theorem crop_box_margin_counterexample :
    (20 + 30 + 5 ≤ (100 : Int)) ∧
    ¬ (20 + 30 + 5 ≤
        (computeCropBox ⟨100, 100, 100⟩ ⟨5, 5, 5⟩ ⟨20, 20, 20, 30, 30, 30⟩).sag0 +
        (computeCropBox ⟨100, 100, 100⟩ ⟨5, 5, 5⟩ ⟨20, 20, 20, 30, 30, 30⟩).sagD) := by
  constructor
  · decide
  · decide

/-- C1 (amended): on each axis, the crop origin is at most the detected
origin minus the margin whenever that is nonnegative, and the crop end
reaches at least the detected end (without the upper-side margin) whenever
the detected region lies within the volume; the upper-side margin is not
applied. -/
theorem crop_box_contains_detected (img : ImgSize) (e : Expansion) (bb : DetectedBBox)
    (hes : 0 ≤ e.sagittal) (hec : 0 ≤ e.coronal) (hea : 0 ≤ e.axial)
    (hbx : bb.sag0 + bb.sagD ≤ img.x)
    (hby : bb.cor0 + bb.corD ≤ img.y)
    (hbz : bb.ax0 + bb.axD ≤ img.z) :
    (0 ≤ bb.sag0 - e.sagittal → (computeCropBox img e bb).sag0 ≤ bb.sag0 - e.sagittal) ∧
    (0 ≤ bb.cor0 - e.coronal → (computeCropBox img e bb).cor0 ≤ bb.cor0 - e.coronal) ∧
    (0 ≤ bb.ax0 - e.axial → (computeCropBox img e bb).ax0 ≤ bb.ax0 - e.axial) ∧
    bb.sag0 + bb.sagD ≤ (computeCropBox img e bb).sag0 + (computeCropBox img e bb).sagD ∧
    bb.cor0 + bb.corD ≤ (computeCropBox img e bb).cor0 + (computeCropBox img e bb).corD ∧
    bb.ax0 + bb.axD ≤ (computeCropBox img e bb).ax0 + (computeCropBox img e bb).axD := by
  simp only [computeCropBox]
  omega

/-- C1 (witness): the amended containment theorem applied at the concrete
crop box of the counterexample scenario. -/
theorem crop_box_contains_detected_witness :
    (0 ≤ (20 : Int) - 5 →
      (computeCropBox ⟨100, 100, 100⟩ ⟨5, 5, 5⟩ ⟨20, 20, 20, 30, 30, 30⟩).sag0 ≤ 20 - 5) ∧
    (0 ≤ (20 : Int) - 5 →
      (computeCropBox ⟨100, 100, 100⟩ ⟨5, 5, 5⟩ ⟨20, 20, 20, 30, 30, 30⟩).cor0 ≤ 20 - 5) ∧
    (0 ≤ (20 : Int) - 5 →
      (computeCropBox ⟨100, 100, 100⟩ ⟨5, 5, 5⟩ ⟨20, 20, 20, 30, 30, 30⟩).ax0 ≤ 20 - 5) ∧
    20 + 30 ≤
      (computeCropBox ⟨100, 100, 100⟩ ⟨5, 5, 5⟩ ⟨20, 20, 20, 30, 30, 30⟩).sag0 +
      (computeCropBox ⟨100, 100, 100⟩ ⟨5, 5, 5⟩ ⟨20, 20, 20, 30, 30, 30⟩).sagD ∧
    20 + 30 ≤
      (computeCropBox ⟨100, 100, 100⟩ ⟨5, 5, 5⟩ ⟨20, 20, 20, 30, 30, 30⟩).cor0 +
      (computeCropBox ⟨100, 100, 100⟩ ⟨5, 5, 5⟩ ⟨20, 20, 20, 30, 30, 30⟩).corD ∧
    20 + 30 ≤
      (computeCropBox ⟨100, 100, 100⟩ ⟨5, 5, 5⟩ ⟨20, 20, 20, 30, 30, 30⟩).ax0 +
      (computeCropBox ⟨100, 100, 100⟩ ⟨5, 5, 5⟩ ⟨20, 20, 20, 30, 30, 30⟩).axD :=
  crop_box_contains_detected ⟨100, 100, 100⟩ ⟨5, 5, 5⟩ ⟨20, 20, 20, 30, 30, 30⟩
    (by decide) (by decide) (by decide) (by decide) (by decide) (by decide)

/-- A 3-D voxel volume in index space: a size per axis and a voxel value
function. Physical metadata (spacing, origin, direction) plays no role in
the index-space claims and is omitted; values are the nonnegative integer
voxel intensities (the masks are uint8 volumes). -/
structure Volume where
  sizeX : Nat
  sizeY : Nat
  sizeZ : Nat
  val : Nat → Nat → Nat → Nat

/-- Extensional equality of volumes: equal sizes and equal voxel values at
every in-bounds index. -/
def Volume.eqOn (a b : Volume) : Prop :=
  a.sizeX = b.sizeX ∧ a.sizeY = b.sizeY ∧ a.sizeZ = b.sizeZ ∧
  ∀ x y z, x < a.sizeX → y < a.sizeY → z < a.sizeZ → a.val x y z = b.val x y z

/-- The crop box in `Nat` index space, as consumed by `CropImage`:
origin and size per axis. -/
structure CropBoxN where
  ox : Nat
  oy : Nat
  oz : Nat
  sx : Nat
  sy : Nat
  sz : Nat

/-- Modelled from the spec: `cropVolume(volume, box) → volume` is a "pure
index-space slice" (§6); the repository's `CropImage` helper lives in the
`cardiac` module, which is not part of the orchestrator source file. The
result has the box's size and reads the source at the box-offset index. -/
def CropImage (v : Volume) (b : CropBoxN) : Volume :=
  ⟨b.sx, b.sy, b.sz, fun x y z => v.val (b.ox + x) (b.oy + y) (b.oz + z)⟩

/-- Modelled from the spec: `pasteIntoTemplate(template, patch, offset) →
volume` (§6), the contract of the `sitk.Paste(template_im, binary_struct,
binary_struct.GetSize(), (0,0,0), (sag0, cor0, ax0))` collaborator call:
the result has the template's geometry; inside the destination region
`[offset, offset + patch size)` it copies the patch with no resampling,
elsewhere it keeps the template's value. -/
def pasteIntoTemplate (tmpl patch : Volume) (ox oy oz : Nat) : Volume :=
  ⟨tmpl.sizeX, tmpl.sizeY, tmpl.sizeZ,
    fun x y z =>
      if ox ≤ x ∧ x < ox + patch.sizeX ∧ oy ≤ y ∧ y < oy + patch.sizeY ∧
          oz ≤ z ∧ z < oz + patch.sizeZ then
        patch.val (x - ox) (y - oy) (z - oz)
      else tmpl.val x y z⟩

/-- Embeds `template_im = sitk.Cast((img * 0), sitk.sitkUInt8)`
(`service.py` line 342): an all-zero volume with the target's geometry. -/
def zeroTemplate (img : Volume) : Volume :=
  ⟨img.sizeX, img.sizeY, img.sizeZ, fun _ _ _ => 0⟩

/-- Embeds one iteration of the output compositing loops (`service.py`
lines 346-375): paste the binary structure into the zero template at the
crop offset `(sag0, cor0, ax0)`. -/
def composeOutput (img mask : Volume) (ox oy oz : Nat) : Volume :=
  pasteIntoTemplate (zeroTemplate img) mask ox oy oz

/-- C3: the composited output volume has the original target's size; every
voxel outside the pasted region `[crop origin, crop origin + mask size)`
is zero, and every voxel inside equals the corresponding cropped-space
mask voxel, copied at index offset with no resampling. -/
theorem output_compositor_exact (img mask : Volume) (ox oy oz : Nat) :
    (composeOutput img mask ox oy oz).sizeX = img.sizeX ∧
    (composeOutput img mask ox oy oz).sizeY = img.sizeY ∧
    (composeOutput img mask ox oy oz).sizeZ = img.sizeZ ∧
    (∀ x y z,
      (ox ≤ x ∧ x < ox + mask.sizeX ∧ oy ≤ y ∧ y < oy + mask.sizeY ∧
        oz ≤ z ∧ z < oz + mask.sizeZ) →
      (composeOutput img mask ox oy oz).val x y z = mask.val (x - ox) (y - oy) (z - oz)) ∧
    (∀ x y z,
      ¬ (ox ≤ x ∧ x < ox + mask.sizeX ∧ oy ≤ y ∧ y < oy + mask.sizeY ∧
          oz ≤ z ∧ z < oz + mask.sizeZ) →
      (composeOutput img mask ox oy oz).val x y z = 0) := by
  refine ⟨rfl, rfl, rfl, ?_, ?_⟩
  · intro x y z h
    simp only [composeOutput, pasteIntoTemplate, zeroTemplate]
    exact if_pos h
  · intro x y z h
    simp only [composeOutput, pasteIntoTemplate, zeroTemplate]
    exact if_neg h

/-- C3 (witness): the compositor theorem at a concrete 3×3×3 target, a
2×2×2 constant-one mask pasted at offset (1,1,1): the voxel at (1,1,1)
carries the mask value and the voxel at (0,0,0) is background. -/
theorem output_compositor_exact_witness :
    (composeOutput ⟨3, 3, 3, fun _ _ _ => 7⟩ ⟨2, 2, 2, fun _ _ _ => 1⟩ 1 1 1).val 1 1 1 = 1 ∧
    (composeOutput ⟨3, 3, 3, fun _ _ _ => 7⟩ ⟨2, 2, 2, fun _ _ _ => 1⟩ 1 1 1).val 0 0 0 = 0 :=
  ⟨(output_compositor_exact ⟨3, 3, 3, fun _ _ _ => 7⟩ ⟨2, 2, 2, fun _ _ _ => 1⟩
      1 1 1).2.2.2.1 1 1 1 (by decide),
    (output_compositor_exact ⟨3, 3, 3, fun _ _ _ => 7⟩ ⟨2, 2, 2, fun _ _ _ => 1⟩
      1 1 1).2.2.2.2 0 0 0 (by decide)⟩

/-- C4: for a mask lying entirely within the Crop Box, pasting it into a
zero-initialized full-size template at the crop offset and cropping the
result at the same box recovers the original mask exactly. -/
theorem crop_paste_roundtrip (img mask : Volume) (ox oy oz : Nat)
    (hx : ox + mask.sizeX ≤ img.sizeX) (hy : oy + mask.sizeY ≤ img.sizeY)
    (hz : oz + mask.sizeZ ≤ img.sizeZ) :
    Volume.eqOn
      (CropImage (composeOutput img mask ox oy oz)
        ⟨ox, oy, oz, mask.sizeX, mask.sizeY, mask.sizeZ⟩)
      mask := by
  refine ⟨rfl, rfl, rfl, ?_⟩
  intro x y z hxb hyb hzb
  simp only [CropImage] at hxb hyb hzb
  simp only [CropImage, composeOutput, pasteIntoTemplate, zeroTemplate]
  rw [if_pos (by omega)]
  congr 1 <;> omega

/-- C4 (witness): round-trip at a concrete 4×4×4 target with a 2×1×2 mask
at offset (1,2,0). -/
theorem crop_paste_roundtrip_witness :
    Volume.eqOn
      (CropImage (composeOutput ⟨4, 4, 4, fun _ _ _ => 9⟩ ⟨2, 1, 2, fun x y z => x + y + z⟩ 1 2 0)
        ⟨1, 2, 0, 2, 1, 2⟩)
      ⟨2, 1, 2, fun x y z => x + y + z⟩ :=
  crop_paste_roundtrip ⟨4, 4, 4, fun _ _ _ => 9⟩ ⟨2, 1, 2, fun x y z => x + y + z⟩ 1 2 0
    (by decide) (by decide) (by decide)

/-- Embeds the output compositing loop over the produced structure masks
(`service.py` lines 346-375): each iteration pastes one binary structure
into `template_im`; `sitk.Paste` returns a new image, so the template is
passed unchanged to every iteration. -/
def compositorLoop (tmpl : Volume) (ox oy oz : Nat) : List Volume → List Volume
  | [] => []
  | m :: rest => pasteIntoTemplate tmpl m ox oy oz :: compositorLoop tmpl ox oy oz rest

/-- C10: the zero template is never mutated by compositing: the outputs of
the compositor loop are exactly the independent pastes of each mask into
the pristine zero template, so each output depends only on its own mask,
independent of how many structures were pasted before it and in which
order. -/
theorem compositor_template_not_mutated (img : Volume) (ox oy oz : Nat)
    (masks : List Volume) :
    compositorLoop (zeroTemplate img) ox oy oz masks
      = masks.map (fun m => pasteIntoTemplate (zeroTemplate img) m ox oy oz) := by
  induction masks with
  | nil => rfl
  | cons m rest ih => simp [compositorLoop, ih]

/-- C7 (counterexample): the claim states that an empty detected region
makes the run fail with an explicit error before producing output. With
the empty detector bounding box (0,0,0,0,0,0) on a 100³ target and the
default margins (0,15,5), the orchestrator raises nothing: it computes
the degenerate crop box (0,0,0,0,15,5) — sagittal size 0 — and the
composited output for the resulting all-zero mask is the all-background
full-size volume, so the run silently proceeds to produce output. -/
theorem no_detection_check_counterexample :
    computeCropBox ⟨100, 100, 100⟩ ⟨0, 15, 5⟩ ⟨0, 0, 0, 0, 0, 0⟩ = ⟨0, 0, 0, 0, 15, 5⟩ ∧
    Volume.eqOn
      (composeOutput ⟨100, 100, 100, fun _ _ _ => 50⟩ ⟨0, 15, 5, fun _ _ _ => 0⟩ 0 0 0)
      (zeroTemplate ⟨100, 100, 100, fun _ _ _ => 50⟩) := by
  refine ⟨by decide, rfl, rfl, rfl, ?_⟩
  intro x y z _ _ _
  simp only [composeOutput, pasteIntoTemplate, zeroTemplate]
  split
  · rfl
  · rfl

/-- C7 (amended): the orchestrator performs no validation of the detected
region: the crop-box computation is total, an empty detected bounding box
yields the crop box (0, 0, 0, min margin size per axis) for nonnegative
margins, and whenever the fused cropped-space mask is all zeros the
composited output is the all-background volume — the run proceeds with no
error. -/
theorem no_detection_check (img : ImgSize) (e : Expansion)
    (hes : 0 ≤ e.sagittal) (hec : 0 ≤ e.coronal) (hea : 0 ≤ e.axial)
    (vol mask : Volume) (ox oy oz : Nat)
    (hmask : ∀ x y z, mask.val x y z = 0) :
    computeCropBox img e ⟨0, 0, 0, 0, 0, 0⟩
      = ⟨0, 0, 0, min e.sagittal img.x, min e.coronal img.y, min e.axial img.z⟩ ∧
    Volume.eqOn (composeOutput vol mask ox oy oz) (zeroTemplate vol) := by
  constructor
  · simp only [computeCropBox, CropBoxI.mk.injEq]
    refine ⟨?_, ?_, ?_, ?_, ?_, ?_⟩ <;> omega
  · refine ⟨rfl, rfl, rfl, ?_⟩
    intro x y z _ _ _
    simp only [composeOutput, pasteIntoTemplate, zeroTemplate]
    split
    · exact hmask _ _ _
    · rfl

/-- C7 (witness): the amended theorem at the default margins and a 100³
target with an all-zero 0×15×5 mask. -/
theorem no_detection_check_witness :
    computeCropBox ⟨100, 100, 100⟩ ⟨0, 15, 5⟩ ⟨0, 0, 0, 0, 0, 0⟩
      = ⟨0, 0, 0, min 0 100, min 15 100, min 5 100⟩ ∧
    Volume.eqOn
      (composeOutput ⟨100, 100, 100, fun _ _ _ => 50⟩ ⟨0, 15, 5, fun _ _ _ => 0⟩ 0 0 0)
      (zeroTemplate ⟨100, 100, 100, fun _ _ _ => 50⟩) :=
  no_detection_check ⟨100, 100, 100⟩ ⟨0, 15, 5⟩ (by decide) (by decide) (by decide)
    ⟨100, 100, 100, fun _ _ _ => 50⟩ ⟨0, 15, 5, fun _ _ _ => 0⟩ 0 0 0
    (fun _ _ _ => rfl)

/-- A probability volume: the per-structure fusion result, with rational
voxel values (the spec guarantees values in [0,1]). -/
structure ProbVolume where
  sizeX : Nat
  sizeY : Nat
  sizeZ : Nat
  val : Nat → Nat → Nat → ℚ

/-- Modelled from the spec: `process_probability_image` (the Label Fusion
Engine's thresholding step, which lives in the atlas label module, not in
the orchestrator source file) thresholds the probability volume at the
per-structure cutoff, producing a binary mask: a voxel is foreground
exactly when its probability reaches the cutoff. -/
def process_probability_image (p : ProbVolume) (threshold : ℚ) : Volume :=
  ⟨p.sizeX, p.sizeY, p.sizeZ, fun x y z => if threshold ≤ p.val x y z then 1 else 0⟩

/-- The number of foreground voxels of a binary mask. -/
def maskVoxelCount (v : Volume) : Nat :=
  ∑ x ∈ Finset.range v.sizeX, ∑ y ∈ Finset.range v.sizeY, ∑ z ∈ Finset.range v.sizeZ,
    (if v.val x y z = 1 then 1 else 0)

/-- C5: for a fixed probability volume with values in [0,1] and cutoffs
t1 ≤ t2 in [0,1], every foreground voxel of the mask thresholded at t2 is
foreground in the mask thresholded at t1, and the t2 mask's voxel count
does not exceed the t1 mask's: raising the cutoff never grows the mask. -/
theorem threshold_monotone (p : ProbVolume) (t1 t2 : ℚ)
    (hrange : ∀ x y z, 0 ≤ p.val x y z ∧ p.val x y z ≤ 1)
    (ht1 : 0 ≤ t1) (ht2 : t2 ≤ 1) (h12 : t1 ≤ t2) :
    (∀ x y z, (process_probability_image p t2).val x y z = 1 →
      (process_probability_image p t1).val x y z = 1) ∧
    maskVoxelCount (process_probability_image p t2)
      ≤ maskVoxelCount (process_probability_image p t1) := by
  have key : ∀ x y z, (process_probability_image p t2).val x y z = 1 →
      (process_probability_image p t1).val x y z = 1 := by
    intro x y z h
    simp only [process_probability_image] at h ⊢
    split at h
    · rw [if_pos (le_trans h12 (by assumption))]
    · exact absurd h one_ne_zero.symm
  refine ⟨key, ?_⟩
  unfold maskVoxelCount
  refine Finset.sum_le_sum fun x _ => ?_
  refine Finset.sum_le_sum fun y _ => ?_
  refine Finset.sum_le_sum fun z _ => ?_
  by_cases h2 : (process_probability_image p t2).val x y z = 1
  · rw [if_pos h2, if_pos (key x y z h2)]
  · rw [if_neg h2]
    split
    · exact Nat.zero_le 1
    · exact le_refl 0

/-- C5 (witness): monotonicity at a concrete 2×2×2 probability volume
with value 1/2 everywhere and cutoffs 1/4 ≤ 3/4. -/
theorem threshold_monotone_witness :
    (∀ x y z,
      (process_probability_image ⟨2, 2, 2, fun _ _ _ => (1 : ℚ)/2⟩ ((3 : ℚ)/4)).val x y z = 1 →
      (process_probability_image ⟨2, 2, 2, fun _ _ _ => (1 : ℚ)/2⟩ ((1 : ℚ)/4)).val x y z = 1) ∧
    maskVoxelCount (process_probability_image ⟨2, 2, 2, fun _ _ _ => (1 : ℚ)/2⟩ ((3 : ℚ)/4))
      ≤ maskVoxelCount (process_probability_image ⟨2, 2, 2, fun _ _ _ => (1 : ℚ)/2⟩ ((1 : ℚ)/4)) :=
  threshold_monotone ⟨2, 2, 2, fun _ _ _ => (1 : ℚ)/2⟩ ((1 : ℚ)/4) ((3 : ℚ)/4)
    (fun _ _ _ => by norm_num) (by norm_num) (by norm_num) (by norm_num)

theorem length_filter_not_add_length_filter (p : α → Bool) (l : List α) :
    (l.filter fun a => !p a).length + (l.filter p).length = l.length := by
  induction l with
  | nil => rfl
  | cons a t ih =>
    by_cases h : p a
    · simp [List.filter_cons, h]
      omega
    · simp [List.filter_cons, h]
      omega

/-- Modelled from the spec: the Outlier Rejection Engine (`IAR`, §4.4),
which lives in the iterative-atlas-removal module, not in the orchestrator
source file. The Atlas Set is represented by its identifier list; the
scoring pipeline (distance maps, robust z-score, fencing) of steps a-d is
abstracted as the outlier predicate `flagTest`, a function of the current
set, which covers every input score distribution. Per iteration, spec
steps e-f: if at least one atlas is flagged and removing the flagged
atlases would not drop the set below `minBestAtlases`, remove them and
iterate; terminate when nothing is flagged, the floor would be violated,
or the iteration cap (`fuel`) is reached. -/
def IAR (flagTest : List String → String → Bool) (minBestAtlases : Nat) :
    Nat → List String → List String
  | 0, atlasSet => atlasSet
  | fuel + 1, atlasSet =>
    let flagged := atlasSet.filter (flagTest atlasSet)
    if flagged.isEmpty then atlasSet
    else if atlasSet.length - flagged.length < minBestAtlases then atlasSet
    else IAR flagTest minBestAtlases fuel (atlasSet.filter fun a => !flagTest atlasSet a)

/-- C2: for every outlier predicate (hence every score distribution),
every floor, every iteration cap and every starting Atlas Set at least as
large as the floor, the IAR never returns a set smaller than the floor;
and when the floor equals the number of configured atlases it removes no
atlas at all. -/
theorem iar_respects_floor (flagTest : List String → String → Bool)
    (minBestAtlases fuel : Nat) (atlasSet : List String)
    (h : minBestAtlases ≤ atlasSet.length) :
    minBestAtlases ≤ (IAR flagTest minBestAtlases fuel atlasSet).length ∧
    (minBestAtlases = atlasSet.length →
      IAR flagTest minBestAtlases fuel atlasSet = atlasSet) := by
  induction fuel generalizing atlasSet with
  | zero => exact ⟨h, fun _ => rfl⟩
  | succ f ih =>
    by_cases hempty : (atlasSet.filter (flagTest atlasSet)).isEmpty
    · rw [IAR]
      simp only [hempty, if_true]
      refine ⟨h, fun _ => ?_⟩
      trivial
    · have hne : atlasSet.filter (flagTest atlasSet) ≠ [] := by
        intro hnil
        exact hempty (by simp [hnil])
      have hpos : 0 < (atlasSet.filter (flagTest atlasSet)).length :=
        List.length_pos.mpr hne
      by_cases hfloor :
          atlasSet.length - (atlasSet.filter (flagTest atlasSet)).length < minBestAtlases
      · rw [IAR]
        simp only [hempty, if_false, hfloor, if_true]
        refine ⟨h, fun _ => ?_⟩
        trivial
      · have hsplit := length_filter_not_add_length_filter (flagTest atlasSet) atlasSet
        have hrec : minBestAtlases ≤ (atlasSet.filter fun a => !flagTest atlasSet a).length := by
          omega
        rw [IAR]
        simp only [hempty, if_false, hfloor, if_true]
        refine ⟨(ih _ hrec).1, fun hmin => ?_⟩
        omega

/-- C2 (witness): the floor theorem at the default configuration scale:
five configured atlases, floor 4, an outlier predicate that always flags
atlas "13", iteration cap 3. -/
theorem iar_respects_floor_witness :
    4 ≤ (IAR (fun _ a => a == "13") 4 3 ["08", "11", "12", "13", "14"]).length ∧
    (4 = (["08", "11", "12", "13", "14"] : List String).length →
      IAR (fun _ a => a == "13") 4 3 ["08", "11", "12", "13", "14"]
        = ["08", "11", "12", "13", "14"]) :=
  iar_respects_floor (fun _ a => a == "13") 4 3 ["08", "11", "12", "13", "14"] (by decide)

/-- Embeds the per-atlas registration loops of the orchestrator
(`service.py` lines 210-239, rigid, and 251-274, deformable): the loop
iterates `atlas_id_list` in order, calling the external registration
collaborator for each atlas with no exception handling around the call.
The collaborator is abstracted as a fallible function; an error for one
atlas short-circuits the whole loop, as an uncaught Python exception
does. -/
def registrationStage {β : Type} (register : String → Except String β) :
    List String → Except String (List (String × β))
  | [] => Except.ok []
  | atlasId :: rest =>
    match register atlasId with
    | Except.error e => Except.error e
    | Except.ok r =>
      match registrationStage register rest with
      | Except.error e => Except.error e
      | Except.ok l => Except.ok ((atlasId, r) :: l)

/-- C6 (counterexample): with the five default atlases and a registration
collaborator that fails only for atlas "11", the whole registration stage
returns the error: the failure is not caught per-atlas and the run does
not continue with the remaining four atlases. -/
theorem registration_failure_not_caught :
    registrationStage
        (fun atlasId =>
          if atlasId == "11" then (Except.error "degenerate transform" : Except String Nat)
          else Except.ok 0)
        ["08", "11", "12", "13", "14"]
      = Except.error "degenerate transform" ∧
    registrationStage
        (fun atlasId =>
          if atlasId == "11" then (Except.error "degenerate transform" : Except String Nat)
          else Except.ok 0)
        ["08", "11", "12", "13", "14"]
      ≠ Except.ok [("08", 0), ("12", 0), ("13", 0), ("14", 0)] := by
  constructor
  · rfl
  · intro hcontra
    exact Except.noConfusion ((rfl :
      registrationStage
        (fun atlasId =>
          if atlasId == "11" then (Except.error "degenerate transform" : Except String Nat)
          else Except.ok 0)
        ["08", "11", "12", "13", "14"]
      = Except.error "degenerate transform") ▸ hcontra)

/-- C6 (amended): a single atlas's registration failure is not isolated:
if the registration collaborator fails for any atlas in the configured
list, the whole registration stage (and hence the run) aborts with an
error instead of excluding that atlas and continuing. -/
theorem registration_failure_aborts_run {β : Type}
    (register : String → Except String β) (ids : List String)
    (h : ∃ a ∈ ids, ∃ e, register a = Except.error e) :
    ∃ e, registrationStage register ids = Except.error e := by
  induction ids with
  | nil =>
    rcases h with ⟨a, ha, -⟩
    exact absurd ha (List.not_mem_nil a)
  | cons b rest ih =>
    rcases h with ⟨a, ha, e, hae⟩
    cases hreg : register b with
    | error e2 =>
      refine ⟨e2, ?_⟩
      simp [registrationStage, hreg]
    | ok r =>
      have hmem : a ∈ rest := by
        rcases List.mem_cons.mp ha with h1 | h1
        · rw [h1, hreg] at hae
          exact Except.noConfusion hae
        · exact h1
      rcases ih ⟨a, hmem, e, hae⟩ with ⟨e2, h2⟩
      refine ⟨e2, ?_⟩
      simp [registrationStage, hreg, h2]

/-- C6 (witness): the amended abort theorem at the concrete five-atlas
configuration with atlas "11" failing. -/
theorem registration_failure_aborts_run_witness :
    ∃ e,
      registrationStage
          (fun atlasId =>
            if atlasId == "11" then (Except.error "degenerate transform" : Except String Nat)
            else Except.ok 0)
          ["08", "11", "12", "13", "14"]
        = Except.error e :=
  registration_failure_aborts_run
    (fun atlasId =>
      if atlasId == "11" then (Except.error "degenerate transform" : Except String Nat)
      else Except.ok 0)
    ["08", "11", "12", "13", "14"]
    ⟨"11", by simp, "degenerate transform", rfl⟩

/-- An atlas record: the per-stage structure-label dictionaries of one
atlas (`atlas_set[atlas_id]["Original"/"RIR"/"DIR"]`), as association
lists from structure name to label volume. The stage CT image, transform
and weight map entries are not needed for the propagation claim and are
omitted; `L` is the abstract label-volume type. -/
structure AtlasRecord (L : Type) where
  original : List (String × L)
  rir : List (String × L)
  dir : List (String × L)

/-- Embeds the initialisation loop (`service.py` lines 148-153): the
`Original` stage holds one label volume per configured structure, loaded
by the abstract reader. -/
def buildOriginal {L : Type} (read : String → L) (structs : List String) :
    List (String × L) :=
  structs.map fun s => (s, read s)

/-- Embeds the per-structure propagation loops (`service.py` lines
235-239 and 270-274): for every configured structure, read that
structure's label from the previous stage's dictionary and store its
propagated image under the same key in the new stage. `prop` abstracts
`transform_propagation` (rigid) or `apply_field` (deformable) applied
with the stage's transform. -/
def propagateStage {L : Type} [Inhabited L] (prop : L → L)
    (prev : List (String × L)) (structs : List String) : List (String × L) :=
  structs.map fun s => (s, prop ((List.lookup s prev).getD default))

/-- Embeds the construction of one atlas's record across the pipeline
stages: `Original` from the reader, `RIR` by rigid propagation from
`Original`, `DIR` by deformable propagation from `RIR`. -/
def buildAtlasRecord {L : Type} [Inhabited L] (read : String → L)
    (rigidProp deformProp : L → L) (structs : List String) : AtlasRecord L :=
  let orig := buildOriginal read structs
  let rir := propagateStage rigidProp orig structs
  let dir := propagateStage deformProp rir structs
  ⟨orig, rir, dir⟩

/-- Embeds the outer loops over `atlas_id_list`: every configured atlas
gets a record built stage-by-stage; the reader and the per-stage
propagation operators may depend on the atlas. -/
def buildAtlasSet {L : Type} [Inhabited L] (read : String → String → L)
    (rigidProp deformProp : String → L → L) (ids structs : List String) :
    List (String × AtlasRecord L) :=
  ids.map fun atlasId =>
    (atlasId, buildAtlasRecord (read atlasId) (rigidProp atlasId) (deformProp atlasId) structs)

theorem lookup_map_self {α : Type} (f : String → α) (l : List String) (s : String)
    (h : s ∈ l) : List.lookup s (l.map fun k => (k, f k)) = some (f s) := by
  induction l with
  | nil => exact absurd h (List.not_mem_nil s)
  | cons a t ih =>
    by_cases hsa : s = a
    · subst hsa
      simp only [List.map, List.lookup, beq_self_eq_true]
    · have hb : (s == a) = false := by simp [hsa]
      have hm : s ∈ t := by
        rcases List.mem_cons.mp h with h1 | h1
        · exact absurd h1 hsa
        · exact h1
      simp only [List.map, List.lookup, hb]
      exact ih hm

theorem lookup_map_inv {α : Type} (f : String → α) (l : List String) (s : String) (v : α)
    (h : List.lookup s (l.map fun k => (k, f k)) = some v) : s ∈ l ∧ v = f s := by
  induction l with
  | nil => exact Option.noConfusion h
  | cons a t ih =>
    by_cases hsa : s = a
    · subst hsa
      simp only [List.map, List.lookup, beq_self_eq_true] at h
      exact ⟨List.mem_cons_self s t, (Option.some.inj h).symm⟩
    · have hb : (s == a) = false := by simp [hsa]
      simp only [List.map, List.lookup, hb] at h
      rcases ih h with ⟨hm, hv⟩
      exact ⟨List.mem_cons_of_mem a hm, hv⟩

theorem lookup_propagateStage {L : Type} [Inhabited L] (prop : L → L)
    (prev : List (String × L)) (structs : List String) (s : String) (hmem : s ∈ structs) :
    List.lookup s (propagateStage prop prev structs)
      = some (prop ((List.lookup s prev).getD default)) :=
  lookup_map_self (fun k => prop ((List.lookup k prev).getD default)) structs s hmem

/-- C9: for every atlas of the configured list and every structure present
in its `Original` stage, the structure is also present in the `RIR` and
`DIR` stages of that atlas's record, carrying the label propagated through
the rigid and then the deformable transform. -/
theorem structures_propagated_through_stages {L : Type} [Inhabited L]
    (read : String → String → L) (rigidProp deformProp : String → L → L)
    (ids structs : List String) (atlasId : String) (rec : AtlasRecord L)
    (s : String) (v : L)
    (hrec : List.lookup atlasId (buildAtlasSet read rigidProp deformProp ids structs)
      = some rec)
    (hs : List.lookup s rec.original = some v) :
    List.lookup s rec.rir = some (rigidProp atlasId v) ∧
    List.lookup s rec.dir = some (deformProp atlasId (rigidProp atlasId v)) := by
  rcases lookup_map_inv
      (fun atlasId =>
        buildAtlasRecord (read atlasId) (rigidProp atlasId) (deformProp atlasId) structs)
      ids atlasId rec hrec with ⟨-, hrecEq⟩
  subst hrecEq
  have horig : List.lookup s (buildOriginal (read atlasId) structs) = some v := hs
  have hmem : s ∈ structs :=
    (lookup_map_inv (fun k => read atlasId k) structs s v horig).1
  have hrir : List.lookup s
      (propagateStage (rigidProp atlasId) (buildOriginal (read atlasId) structs) structs)
      = some (rigidProp atlasId v) := by
    rw [lookup_propagateStage (rigidProp atlasId) (buildOriginal (read atlasId) structs)
      structs s hmem, horig]
    rfl
  have hdir : List.lookup s
      (propagateStage (deformProp atlasId)
        (propagateStage (rigidProp atlasId) (buildOriginal (read atlasId) structs) structs)
        structs)
      = some (deformProp atlasId (rigidProp atlasId v)) := by
    rw [lookup_propagateStage (deformProp atlasId)
      (propagateStage (rigidProp atlasId) (buildOriginal (read atlasId) structs) structs)
      structs s hmem, hrir]
    rfl
  exact ⟨hrir, hdir⟩

/-- C9 (witness): propagation at a concrete one-atlas, one-structure
configuration over natural-number labels: the original label 3 appears
rigid-propagated (+1) in `RIR` and then deformably propagated (×2) in
`DIR`. -/
theorem structures_propagated_through_stages_witness :
    List.lookup "WHOLEHEART"
        (buildAtlasRecord (fun _ => (3 : Nat)) (fun v => v + 1) (fun v => v * 2)
          ["WHOLEHEART"]).rir
      = some 4 ∧
    List.lookup "WHOLEHEART"
        (buildAtlasRecord (fun _ => (3 : Nat)) (fun v => v + 1) (fun v => v * 2)
          ["WHOLEHEART"]).dir
      = some 8 :=
  structures_propagated_through_stages (fun _ _ => (3 : Nat)) (fun _ v => v + 1)
    (fun _ v => v * 2) ["08"] ["WHOLEHEART"] "08"
    (buildAtlasRecord (fun _ => (3 : Nat)) (fun v => v + 1) (fun v => v * 2) ["WHOLEHEART"])
    "WHOLEHEART" 3 (by rfl) (by rfl)

end Platipy
